import Mathlib

/-!
Verification of the service worker in `src/service-worker.js` (Endroid Music,
dual-cache offline-first strategy).  The worker's caches are modelled as
association lists from URL strings to stored responses; the network is a
function from a URL to an optional response (`none` models a rejected fetch);
the asynchronous structure of each handler is made explicit through an event
trace, so that ordering claims ("fire-and-forget", "scheduled") are statable.
-/

namespace SW

/-! ### String utilities

The worker compares URLs with JavaScript's `String.prototype.includes`,
`startsWith` and a regular-expression suffix test.  These are modelled on
character lists. -/

/-- `listStartsWith s p` is true when `p` is an initial segment of `s`
(JavaScript `startsWith` on the underlying characters). -/
def listStartsWith : List Char → List Char → Bool
  | _, [] => true
  | [], _ :: _ => false
  | a :: s, b :: p => a == b && listStartsWith s p

/-- `listHasSub s p` is true when `p` occurs as a contiguous run inside `s`. -/
def listHasSub (s p : List Char) : Bool :=
  match s with
  | [] => listStartsWith [] p
  | _ :: t => listStartsWith s p || listHasSub t p

/-- JavaScript `url.includes(pat)`. -/
def strContains (s pat : String) : Bool :=
  listHasSub s.toList pat.toList

/-- JavaScript `url.startsWith(pat)`. -/
def strStartsWith (s pat : String) : Bool :=
  listStartsWith s.toList pat.toList

/-- JavaScript `s.endsWith(pat)` (used for the regex anchor `$`). -/
def strEndsWith (s pat : String) : Bool :=
  listStartsWith s.toList.reverse pat.toList.reverse

/-- The regex `/\.(mp3|wav|ogg|flac)$/i` of `refreshCacheInBackground`
applied to `request.url`: the URL ends, case-insensitively, in one of the
four audio extensions (with the preceding dot). -/
def isAudioUrl (u : String) : Bool :=
  let l := u.toLower
  strEndsWith l ".mp3" || strEndsWith l ".wav" ||
  strEndsWith l ".ogg" || strEndsWith l ".flac"

/-! ### Data model: responses, cache tiers, worker state -/

/-- A stored or network response: status code, body, and headers.  The
JavaScript `Response` constructor defaults `status` to 200 when no `status`
option is given. -/
structure Resp where
  status : Nat
  body : String
  headers : List (String × String)
  deriving DecidableEq, Repr

/-- `response.ok` in the Cache API sense (`addAll` rejects on a non-ok
response): status in the 200–299 range. -/
def respOk (r : Resp) : Bool :=
  200 ≤ r.status && r.status ≤ 299

/-- The three cache tiers of the worker (`CACHE_PRIMARY`, `CACHE_SECONDARY`,
`CACHE_DATA`). -/
inductive Tier
  | primary
  | secondary
  | data
  deriving DecidableEq, Repr

/-- One cache tier's contents: a key→response mapping represented as an
association list (first match wins on lookup, `put` replaces). -/
abbrev TierMap := List (String × Resp)

/-- `cache.match(key)`: first entry stored under `key`, if any. -/
def lookupAssoc : TierMap → String → Option Resp
  | [], _ => none
  | (k', v) :: rest, k => if k' = k then some v else lookupAssoc rest k

/-- `cache.put(key, resp)`: replaces any existing entry under `key`
(the Cache API stores at most one response per request identity). -/
def putAssoc (k : String) (v : Resp) (t : TierMap) : TierMap :=
  (k, v) :: t.filter (fun p => !decide (p.1 = k))

/-- The worker's shared mutable cache state: the three tiers. -/
structure CacheState where
  primary : TierMap
  secondary : TierMap
  data : TierMap
  deriving DecidableEq, Repr

/-- The empty state (all three tiers freshly created). -/
def emptyState : CacheState := ⟨[], [], []⟩

/-- Write into one tier of the state. -/
def putTier : Tier → String → Resp → CacheState → CacheState
  | .primary, k, v, st => { st with primary := putAssoc k v st.primary }
  | .secondary, k, v, st => { st with secondary := putAssoc k v st.secondary }
  | .data, k, v, st => { st with data := putAssoc k v st.data }

/-- Read one tier of the state. -/
def tierOf : Tier → CacheState → TierMap
  | .primary, st => st.primary
  | .secondary, st => st.secondary
  | .data, st => st.data

/-- `caches.match(request)`: probe every tier for an exact match, in the
tiers' creation order (primary, secondary, data). -/
def cachesMatch (st : CacheState) (k : String) : Option Resp :=
  match lookupAssoc st.primary k with
  | some r => some r
  | none =>
    match lookupAssoc st.secondary k with
    | some r => some r
    | none => lookupAssoc st.data k

/-! ### Build-time constants -/

/-- `CRITICAL_ASSETS`.  The source array is missing the list separator
between the `/service-worker.js` literal and the icon-font URL; per the
design notes the manifest is treated as the intended flat, well-formed list
of six strings. -/
def CRITICAL_ASSETS : List String :=
  ["/", "/index.html", "/manifest.json", "/icon.svg", "/service-worker.js",
   "https://fonts.googleapis.com/icon?family=Material+Icons"]

/-- `OPTIONAL_ASSETS` — empty in the source. -/
def OPTIONAL_ASSETS : List String := []

/-! ### Requests, the network, and the event trace -/

/-- An intercepted request: its absolute URL (`request.url`), its pathname
(`new URL(request.url).pathname`, parsed by the host), and whether it is a
navigation (`request.mode === 'navigate'`). -/
structure Request where
  url : String
  path : String
  navigate : Bool
  deriving DecidableEq, Repr

/-- The network, as seen through `fetch`: `none` models a rejected fetch,
`some r` a resolved response (of any status). -/
abbrev Network := String → Option Resp

/-- Observable events of a request-handling task, in execution order:
a completed cache write, the moment the response is handed back to the
requester, and the scheduling of the delayed background re-validation
(`setTimeout` inside `refreshCacheInBackground`). -/
inductive Ev
  | cacheWrite (t : Tier) (key : String)
  | respond (key : String)
  | scheduleRevalidation (key : String)
  deriving DecidableEq, Repr

/-- True when a trace responds strictly before any cache write completes
(what "fire-and-forget relative to the response" would require). -/
def respondsBeforeWrites : List Ev → Bool
  | [] => true
  | Ev.respond _ :: _ => true
  | Ev.cacheWrite _ _ :: _ => false
  | Ev.scheduleRevalidation _ :: rest => respondsBeforeWrites rest

/-! ### `updateBothCaches`

A fault model makes the `try`/`catch` structure statable: each of the four
possible `cache.put` calls (the two parallel ones and the two retries) can
independently fail with a storage fault. -/

/-- Which of `updateBothCaches`'s four possible puts fail: the first put to
primary, the first put to secondary, the retry put to primary, the retry put
to secondary. -/
structure WriteFaults where
  p1 : Bool
  s1 : Bool
  pR : Bool
  sR : Bool
  deriving DecidableEq, Repr

/-- The fault-free environment. -/
def noFaults : WriteFaults := ⟨false, false, false, false⟩

/-- `updateBothCaches(requestKey, response)`.  The `try` block runs
`Promise.all` over a put into primary and a put into secondary: both effects
happen unless the corresponding put itself faults, and any fault sends
control to the `catch` block, which retries primary and, only if that retry
also faults, retries secondary; a final fault is merely logged.  Returns the
resulting state, the list of tiers attempted in the retry (`catch`) phase in
order, and the completed-write events in order. -/
def updateBothCaches (f : WriteFaults) (key : String) (r : Resp)
    (st : CacheState) : CacheState × List Tier × List Ev :=
  let st1 := if f.p1 then st else putTier .primary key r st
  let st2 := if f.s1 then st1 else putTier .secondary key r st1
  let evs :=
    (if f.p1 then [] else [Ev.cacheWrite .primary key]) ++
    (if f.s1 then [] else [Ev.cacheWrite .secondary key])
  if f.p1 || f.s1 then
    if f.pR then
      if f.sR then
        (st2, [Tier.primary, Tier.secondary], evs)
      else
        (putTier .secondary key r st2, [Tier.primary, Tier.secondary],
         evs ++ [Ev.cacheWrite .secondary key])
    else
      (putTier .primary key r st2, [Tier.primary],
       evs ++ [Ev.cacheWrite .primary key])
  else
    (st2, [], evs)

/-! ### The dual-cache strategy -/

/-- `findSimilarResource`'s two-tier probe for a fixed key: primary first,
then secondary. -/
def probeTwo (st : CacheState) (key : String) : Option Resp :=
  match lookupAssoc st.primary key with
  | some r => some r
  | none => lookupAssoc st.secondary key

/-- `findSimilarResource(request)`: if the pathname ends in `/` or contains
no dot, probe primary then secondary for `/index.html`; if that found
nothing and the pathname is root-like, run the same probe for `/`. -/
def findSimilarResource (req : Request) (st : CacheState) : Option Resp :=
  let first :=
    if strEndsWith req.path "/" || !strContains req.path "." then
      probeTwo st "/index.html"
    else none
  match first with
  | some r => some r
  | none =>
    if req.path = "/" || req.path = "" || req.path = "/index.html" then
      probeTwo st "/"
    else none

/-- One tier's probe inside `getNavigationFallback`: `/index.html`, then
`/`, then `index.html`, first hit wins. -/
def navProbeTier (t : TierMap) : Option Resp :=
  match lookupAssoc t "/index.html" with
  | some r => some r
  | none =>
    match lookupAssoc t "/" with
    | some r => some r
    | none => lookupAssoc t "index.html"

/-- `getNavigationFallback()`: the three-alias probe over primary, then
secondary. -/
def getNavigationFallback (st : CacheState) : Option Resp :=
  match navProbeTier st.primary with
  | some r => some r
  | none => navProbeTier st.secondary

/-- Result of a run of `handleDualCacheRequest`: the produced response
(`none` models the final `throw new Error('No cache available')`), the cache
state when the task completes, and the event trace. -/
structure HandleResult where
  resp : Option Resp
  st : CacheState
  trace : List Ev
  deriving DecidableEq, Repr

/-- Strategies 2–5 of `handleDualCacheRequest`, reached when the network
attempt failed (fetch rejected or status ≠ 200): primary match (with the
background re-validation scheduled unless the URL has an audio extension),
secondary match (promoted into primary), similar resource, navigation
fallback, else failure. -/
def dualCacheFallback (req : Request) (st : CacheState) : HandleResult :=
  match lookupAssoc st.primary req.url with
  | some c =>
    ⟨some c, st,
     (if isAudioUrl req.url then [] else [Ev.scheduleRevalidation req.url]) ++
       [Ev.respond req.url]⟩
  | none =>
    match lookupAssoc st.secondary req.url with
    | some c =>
      ⟨some c, putTier .primary req.url c st,
       [Ev.cacheWrite .primary req.url, Ev.respond req.url]⟩
    | none =>
      match findSimilarResource req st with
      | some c => ⟨some c, st, [Ev.respond req.url]⟩
      | none =>
        if req.navigate then
          match getNavigationFallback st with
          | some c => ⟨some c, st, [Ev.respond req.url]⟩
          | none => ⟨none, st, []⟩
        else ⟨none, st, []⟩

/-- `handleDualCacheRequest(request)`.  Strategy 1 fetches from the network;
on a 200 response it `await`s `updateBothCaches` with a clone and only then
returns the network response (so the write events precede the respond
event); on a rejected fetch or a non-200 status it falls through to the
cache chain. -/
def handleDualCacheRequest (f : WriteFaults) (net : Network) (req : Request)
    (st : CacheState) : HandleResult :=
  match net req.url with
  | some r =>
    if r.status = 200 then
      let u := updateBothCaches f req.url r st
      ⟨some r, u.1, u.2.2 ++ [Ev.respond req.url]⟩
    else dualCacheFallback req st
  | none => dualCacheFallback req st

/-! ### Routing in the fetch listener -/

/-- Where the fetch listener sends an intercepted request. -/
inductive Route
  | skip
  | api
  | dualCache
  deriving DecidableEq, Repr

/-- The fetch listener's dispatch: non-GET requests, `chrome-extension://`
URLs and `browser-sync` URLs are ignored; then a request whose URL contains
`/api/`, or contains `.json` without containing `manifest.json`, goes to
`handleApiRequest`; everything else goes to `handleDualCacheRequest`. -/
def fetchRoute (method url : String) : Route :=
  if !(method = "GET") || strStartsWith url "chrome-extension://" ||
      strContains url "browser-sync" then
    Route.skip
  else if strContains url "/api/" ||
      (strContains url ".json" && !strContains url "manifest.json") then
    Route.api
  else
    Route.dualCache

/-! ### The API strategy -/

/-- The `new Response(JSON.stringify({ error: 'Offline' }), { headers:
{ 'Content-Type': 'application/json' } })` of `handleApiRequest`: no
`status` option is given, so the `Response` constructor's default status 200
applies. -/
def offlineJsonResponse : Resp :=
  ⟨200, "\x7b\"error\":\"Offline\"\x7d", [("Content-Type", "application/json")]⟩

/-- `handleApiRequest(event)`: network-first; a resolved 200 response is
written into the data tier (fire-and-forget, the write completes within the
task) and returned; a resolved non-200 response is returned as-is; on a
rejected fetch, `caches.match` over every tier, falling back to the
synthesized offline JSON body.  Always yields a response. -/
def handleApiRequest (net : Network) (url : String) (st : CacheState) :
    Resp × CacheState :=
  match net url with
  | some r =>
    if r.status = 200 then (r, putTier .data url r st) else (r, st)
  | none =>
    match cachesMatch st url with
    | some c => (c, st)
    | none => (offlineJsonResponse, st)

/-! ### Installation -/

/-- `cache.addAll(assets)` succeeds only when every asset fetch resolves
with an ok response. -/
def addAllOk (net : Network) (assets : List String) : Bool :=
  assets.all fun a =>
    match net a with
    | some r => respOk r
    | none => false

/-- The batch of puts performed by a successful `addAll`. -/
def addAllPuts (net : Network) (assets : List String) (t : TierMap) :
    TierMap :=
  assets.foldl
    (fun acc a =>
      match net a with
      | some r => putAssoc a r acc
      | none => acc)
    t

/-- `caches.open(name)` followed by `cache.addAll(assets)` with the
per-cache `.catch` of the install listener: open is idempotent and raises no
error on an existing tier; `addAll` is a batch operation, so on any fetch
failure nothing is written, and the failure is swallowed. -/
def installTier (net : Network) (assets : List String) (t : TierMap) :
    TierMap :=
  if addAllOk net assets then addAllPuts net assets t else t

/-- The install listener: write every critical asset into primary and into
secondary (each fetched fresh with `cache: 'reload'`), and every optional
asset into data; the three branches run independently over distinct
tiers. -/
def installSW (net : Network) (st : CacheState) : CacheState :=
  { primary := installTier net CRITICAL_ASSETS st.primary,
    secondary := installTier net CRITICAL_ASSETS st.secondary,
    data := installTier net OPTIONAL_ASSETS st.data }

/-! ### Health check and repair -/

/-- The count inside `checkCacheHealth`: how many critical assets are
present in a tier with a 200 status. -/
def countHealthy (t : TierMap) : Nat :=
  (CRITICAL_ASSETS.filter fun a =>
    match lookupAssoc t a with
    | some r => r.status = 200
    | none => false).length

/-- `criticalAssetsCount >= CRITICAL_ASSETS.length * 0.8`.  With the
six-entry manifest, `6 * 0.8` evaluates (also as an IEEE double) to a value
an integer count meets exactly when `5 * count ≥ 4 * 6`; the comparison is
stated over naturals in that exact form. -/
def healthyB (t : TierMap) : Bool :=
  4 * CRITICAL_ASSETS.length ≤ 5 * countHealthy t

/-- One iteration of `repairCache`'s loop: if the donor holds the asset and
the per-entry put does not fault, copy it into the accumulator. -/
def repairStep (pf : String → Bool) (donor : TierMap) (acc : TierMap)
    (a : String) : TierMap :=
  match lookupAssoc donor a with
  | some r => if pf a then acc else putAssoc a r acc
  | none => acc

/-- `repairCache(cacheName)`: for every critical asset present in the donor
(the other of primary/secondary), copy it into the tier under repair; a
per-entry storage fault (`pf a = true`) is logged and skipped without
aborting the loop. -/
def repairFold (pf : String → Bool) (donor : TierMap) (assets : List String)
    (target : TierMap) : TierMap :=
  assets.foldl (repairStep pf donor) target

/-- `checkCacheHealth()`: compute both verdicts on the current state, then
repair primary (donor: secondary) if unhealthy, then repair secondary
(donor: the possibly just-repaired primary) if unhealthy.  The data tier is
neither checked nor repaired.  `pf` gives the per-entry put faults of each
repair pass. -/
def checkCacheHealth (pf : Tier → String → Bool) (st : CacheState) :
    CacheState :=
  let hp := healthyB st.primary
  let hs := healthyB st.secondary
  let st1 :=
    if hp then st
    else { st with
      primary := repairFold (pf .primary) st.secondary CRITICAL_ASSETS st.primary }
  if hs then st1
  else { st1 with
    secondary := repairFold (pf .secondary) st1.primary CRITICAL_ASSETS st1.secondary }

/-! ### Abbreviations of the error taxonomy -/

/-- "Network attempt fails" in the sense of §4.3 step 2: the fetch rejected,
or it resolved with a status other than 200. -/
def networkFails (net : Network) (url : String) : Prop :=
  net url = none ∨ ∃ r, net url = some r ∧ r.status ≠ 200

/-! ### Spec-side comparison definition for routing

The routing claim words the `.json` test as a condition on the request's
*filename* ("its filename ends in `.json` and it is not the manifest
descriptor"); this definition follows those words, to be compared against
`fetchRoute`, which embeds the source's substring tests. -/

/-- The final path segment of a URL (the part after the last `/`). -/
def filenameOf (url : String) : String :=
  String.mk ((url.toList.reverse.takeWhile fun c => c != '/').reverse)

/-- The API-routing condition as the specification words it: path contains
`/api/`, or the filename ends in `.json` and is not `manifest.json`. -/
def specApiRoute (url : String) : Bool :=
  strContains url "/api/" ||
  (strEndsWith (filenameOf url) ".json" && !(filenameOf url = "manifest.json"))

/-! ### Concrete instances used by witnesses and counterexamples -/

/-- A plain 200 response. -/
def okResp : Resp := ⟨200, "ok", []⟩

/-- A network on which every fetch resolves with `okResp`. -/
def netAlways : Network := fun _ => some okResp

/-- A network on which every fetch rejects. -/
def netDown : Network := fun _ => none

/-- A non-navigation request for `/a`. -/
def reqA : Request := ⟨"/a", "/a", false⟩

/-- A state whose primary tier holds `/a` only. -/
def stPrimA : CacheState := ⟨[("/a", okResp)], [], []⟩

/-- A state whose secondary tier holds `/a` only. -/
def stSecA : CacheState := ⟨[], [("/a", okResp)], []⟩

/-- A state whose data tier holds `/a` only. -/
def stDataA : CacheState := ⟨[], [], [("/a", okResp)]⟩

/-- A state whose secondary tier holds the root document only. -/
def stSecRoot : CacheState := ⟨[], [("/", okResp)], []⟩

/-- The fault environment in which only the first put to primary fails. -/
def primaryFailFaults : WriteFaults := ⟨true, false, false, false⟩

/-! ### Basic lemmas about the store -/

theorem lookupAssoc_filter_ne (k0 k : String) (h : k ≠ k0) :
    ∀ t : TierMap,
      lookupAssoc (t.filter fun p => !decide (p.1 = k0)) k = lookupAssoc t k := by
  intro t
  induction t with
  | nil => rfl
  | cons p rest ih =>
    obtain ⟨a, b⟩ := p
    by_cases hp : a = k0
    · have hfa : (!decide ((a, b).1 = k0)) = false := by simp [hp]
      rw [List.filter_cons, hfa]
      simp only [Bool.false_eq_true, if_false]
      rw [ih, lookupAssoc]
      have : ¬a = k := fun hak => h (hak ▸ hp)
      simp [this]
    · have hfa : (!decide ((a, b).1 = k0)) = true := by simp [hp]
      rw [List.filter_cons, hfa]
      simp only [if_true]
      rw [lookupAssoc, lookupAssoc, ih]

theorem lookupAssoc_putAssoc (k k' : String) (v : Resp) (t : TierMap) :
    lookupAssoc (putAssoc k v t) k' = if k = k' then some v else lookupAssoc t k' := by
  unfold putAssoc
  rw [lookupAssoc]
  by_cases h : k = k'
  · simp [h]
  · simp only [h, if_false]
    exact lookupAssoc_filter_ne k k' (Ne.symm h) t

/-! ### Lemmas about `updateBothCaches` and the dual-cache handler -/

theorem updateBothCaches_trace_writes (f : WriteFaults) (key : String) (r : Resp)
    (st : CacheState) :
    ∀ e ∈ (updateBothCaches f key r st).2.2,
      e = Ev.cacheWrite Tier.primary key ∨ e = Ev.cacheWrite Tier.secondary key := by
  unfold updateBothCaches
  cases hp : f.p1 <;> cases hs : f.s1 <;> cases hr : f.pR <;> cases hsr : f.sR <;>
    simp

theorem updateBothCaches_noFaults_state (key : String) (r : Resp) (st : CacheState) :
    (updateBothCaches noFaults key r st).1 =
      putTier .secondary key r (putTier .primary key r st) := rfl

theorem updateBothCaches_noFaults_trace (key : String) (r : Resp) (st : CacheState) :
    (updateBothCaches noFaults key r st).2.2 =
      [Ev.cacheWrite .primary key, Ev.cacheWrite .secondary key] := rfl

theorem handleDualCache_net_fail (f : WriteFaults) (net : Network) (req : Request)
    (st : CacheState) (hn : networkFails net req.url) :
    handleDualCacheRequest f net req st = dualCacheFallback req st := by
  unfold handleDualCacheRequest
  rcases hn with h | ⟨r, h, hr⟩
  · rw [h]
  · rw [h]
    simp [hr]

theorem handleDualCache_net_ok (f : WriteFaults) (net : Network) (req : Request)
    (st : CacheState) (r : Resp) (h1 : net req.url = some r) (h2 : r.status = 200) :
    handleDualCacheRequest f net req st =
      ⟨some r, (updateBothCaches f req.url r st).1,
       (updateBothCaches f req.url r st).2.2 ++ [Ev.respond req.url]⟩ := by
  unfold handleDualCacheRequest
  rw [h1]
  dsimp only
  rw [if_pos h2]

/-! ### The claims -/

/-- Claim C1: for every GET request handled by the dual-cache strategy whose
network fetch resolves with status 200, after the request-handling task
completes both the primary and the secondary tier contain that response
keyed by the request's URL, and the network response itself is what is
returned to the requester. -/
theorem C1_dual_write_through (net : Network) (req : Request) (st : CacheState)
    (r : Resp) (h1 : net req.url = some r) (h2 : r.status = 200) :
    (handleDualCacheRequest noFaults net req st).resp = some r ∧
    lookupAssoc (handleDualCacheRequest noFaults net req st).st.primary req.url =
      some r ∧
    lookupAssoc (handleDualCacheRequest noFaults net req st).st.secondary req.url =
      some r := by
  rw [handleDualCache_net_ok noFaults net req st r h1 h2]
  refine ⟨rfl, ?_, ?_⟩
  · rw [updateBothCaches_noFaults_state]
    simp [putTier, lookupAssoc_putAssoc]
  · rw [updateBothCaches_noFaults_state]
    simp [putTier, lookupAssoc_putAssoc]

/-- Witness for C1 at a concrete request, network and state. -/
theorem C1_witness :
    netAlways reqA.url = some okResp ∧ okResp.status = 200 ∧
    ((handleDualCacheRequest noFaults netAlways reqA emptyState).resp = some okResp ∧
      lookupAssoc (handleDualCacheRequest noFaults netAlways reqA emptyState).st.primary
        reqA.url = some okResp ∧
      lookupAssoc (handleDualCacheRequest noFaults netAlways reqA emptyState).st.secondary
        reqA.url = some okResp) :=
  ⟨rfl, rfl, C1_dual_write_through netAlways reqA emptyState okResp rfl rfl⟩

/-- Claim C2 counterexample: on the dual-cache strategy's success path the
code runs `await updateBothCaches(...)` *before* `return networkResponse`,
so the response is not handed back before the cache writes complete: at a
concrete 200-success input, the trace does not respond before the write
events, refuting "returning the response to the requester never waits on
the completion of those cache writes". -/
theorem C2_counterexample :
    netAlways reqA.url = some okResp ∧ okResp.status = 200 ∧
    respondsBeforeWrites
      (handleDualCacheRequest noFaults netAlways reqA emptyState).trace = false := by
  exact ⟨rfl, rfl, rfl⟩

/-- Claim C2 as amended: in the dual-cache strategy, when the network fetch
succeeds with status 200 the network response is returned to the requester
only after the awaited write into the primary and secondary tiers has
completed — the trace is the cache-write events of `updateBothCaches`
followed by the respond event — and in the fault-free environment the
response is therefore not handed back before the writes. -/
theorem C2_amended_awaited_write (f : WriteFaults) (net : Network) (req : Request)
    (st : CacheState) (r : Resp) (h1 : net req.url = some r) (h2 : r.status = 200) :
    (handleDualCacheRequest f net req st).resp = some r ∧
    (handleDualCacheRequest f net req st).trace =
      (updateBothCaches f req.url r st).2.2 ++ [Ev.respond req.url] ∧
    (∀ e ∈ (updateBothCaches f req.url r st).2.2,
      e = Ev.cacheWrite Tier.primary req.url ∨
      e = Ev.cacheWrite Tier.secondary req.url) ∧
    respondsBeforeWrites
      (handleDualCacheRequest noFaults net req st).trace = false := by
  refine ⟨?_, ?_, updateBothCaches_trace_writes f req.url r st, ?_⟩
  · rw [handleDualCache_net_ok f net req st r h1 h2]
  · rw [handleDualCache_net_ok f net req st r h1 h2]
  · rw [handleDualCache_net_ok noFaults net req st r h1 h2,
      updateBothCaches_noFaults_trace]
    rfl

/-- Witness for the amended C2 at a concrete input. -/
theorem C2_amended_witness :
    netAlways reqA.url = some okResp ∧ okResp.status = 200 ∧
    ((handleDualCacheRequest noFaults netAlways reqA emptyState).resp = some okResp ∧
      (handleDualCacheRequest noFaults netAlways reqA emptyState).trace =
        (updateBothCaches noFaults reqA.url okResp emptyState).2.2 ++
          [Ev.respond reqA.url] ∧
      (∀ e ∈ (updateBothCaches noFaults reqA.url okResp emptyState).2.2,
        e = Ev.cacheWrite Tier.primary reqA.url ∨
        e = Ev.cacheWrite Tier.secondary reqA.url) ∧
      respondsBeforeWrites
        (handleDualCacheRequest noFaults netAlways reqA emptyState).trace = false) :=
  ⟨rfl, rfl, C2_amended_awaited_write noFaults netAlways reqA emptyState okResp rfl rfl⟩

/-- Claim C3 counterexample: in `updateBothCaches`'s `catch` block the retry
always goes to the primary tier first, whichever put failed.  With a single
write failure — the first put to primary fails, the put to secondary
succeeds — the claim says the retry targets only the tier that did not fail
(secondary), but the code's retry sequence is exactly `[primary]`, the tier
that did fail. -/
theorem C3_counterexample :
    primaryFailFaults.p1 = true ∧ primaryFailFaults.s1 = false ∧
    (updateBothCaches primaryFailFaults "/a" okResp emptyState).2.1 =
      [Tier.primary] ∧
    (updateBothCaches primaryFailFaults "/a" okResp emptyState).2.1 ≠
      [Tier.secondary] := by
  refine ⟨rfl, rfl, rfl, ?_⟩
  decide

/-- Claim C3 as amended: when any of the two parallel writes of a successful
network response fails, the retry is issued against the primary tier first
— regardless of which write failed — and against the secondary tier only if
that primary retry also fails; when no write fails there is no retry; and a
total failure of all writes is only logged, never surfaced to the requester:
the handler still returns the network response under every fault
environment. -/
theorem C3_amended_retry_order (f : WriteFaults) (key : String) (r : Resp)
    (st : CacheState) (net : Network) (req : Request)
    (h1 : net req.url = some r) (h2 : r.status = 200) :
    ((f.p1 || f.s1) = true →
      (updateBothCaches f key r st).2.1 =
        Tier.primary :: (if f.pR then [Tier.secondary] else [])) ∧
    ((f.p1 || f.s1) = false → (updateBothCaches f key r st).2.1 = []) ∧
    (handleDualCacheRequest f net req st).resp = some r := by
  refine ⟨?_, ?_, ?_⟩
  · intro h
    unfold updateBothCaches
    rw [h]
    cases hr : f.pR <;> cases hsr : f.sR <;> simp
  · intro h
    unfold updateBothCaches
    rw [h]
    simp
  · rw [handleDualCache_net_ok f net req st r h1 h2]

/-- Witness for the amended C3 at a concrete faulty input (first primary put
fails, no other faults). -/
theorem C3_amended_witness :
    netAlways reqA.url = some okResp ∧ okResp.status = 200 ∧
    (((primaryFailFaults.p1 || primaryFailFaults.s1) = true →
      (updateBothCaches primaryFailFaults "/a" okResp emptyState).2.1 =
        Tier.primary :: (if primaryFailFaults.pR then [Tier.secondary] else [])) ∧
    ((primaryFailFaults.p1 || primaryFailFaults.s1) = false →
      (updateBothCaches primaryFailFaults "/a" okResp emptyState).2.1 = []) ∧
    (handleDualCacheRequest primaryFailFaults netAlways reqA emptyState).resp =
      some okResp) :=
  ⟨rfl, rfl,
   C3_amended_retry_order primaryFailFaults "/a" okResp emptyState netAlways reqA
     rfl rfl⟩

/-- Claim C4: for every request whose network attempt fails (rejected fetch
or non-200 status) and whose URL the primary tier holds, the primary entry
is returned — in particular its body is the returned body — and the delayed
background re-validation is scheduled exactly when the URL does not match
the audio file-extension pattern (mp3, wav, ogg, flac). -/
theorem C4_primary_hit_revalidation (net : Network) (req : Request)
    (st : CacheState) (c : Resp) (hn : networkFails net req.url)
    (hp : lookupAssoc st.primary req.url = some c) :
    (handleDualCacheRequest noFaults net req st).resp = some c ∧
    (handleDualCacheRequest noFaults net req st).resp.map Resp.body =
      some c.body ∧
    (Ev.scheduleRevalidation req.url ∈
        (handleDualCacheRequest noFaults net req st).trace ↔
      isAudioUrl req.url = false) := by
  rw [handleDualCache_net_fail noFaults net req st hn]
  unfold dualCacheFallback
  rw [hp]
  cases ha : isAudioUrl req.url <;> simp

/-- Witness for C4 at a concrete input: network down, `/a` in primary, URL
not audio. -/
theorem C4_witness :
    networkFails netDown reqA.url ∧
    lookupAssoc stPrimA.primary reqA.url = some okResp ∧
    ((handleDualCacheRequest noFaults netDown reqA stPrimA).resp = some okResp ∧
      (handleDualCacheRequest noFaults netDown reqA stPrimA).resp.map Resp.body =
        some okResp.body ∧
      (Ev.scheduleRevalidation reqA.url ∈
          (handleDualCacheRequest noFaults netDown reqA stPrimA).trace ↔
        isAudioUrl reqA.url = false)) :=
  ⟨Or.inl rfl, rfl,
   C4_primary_hit_revalidation netDown reqA stPrimA okResp (Or.inl rfl) rfl⟩

/-- Claim C5, the promotion invariant: for every request whose network
attempt fails, with no primary entry but a secondary entry under the exact
request URL, the secondary entry is returned and, after handling completes,
the primary tier also contains that entry under the same URL. -/
theorem C5_promotion (net : Network) (req : Request) (st : CacheState)
    (c : Resp) (hn : networkFails net req.url)
    (hp : lookupAssoc st.primary req.url = none)
    (hs : lookupAssoc st.secondary req.url = some c) :
    (handleDualCacheRequest noFaults net req st).resp = some c ∧
    lookupAssoc (handleDualCacheRequest noFaults net req st).st.primary req.url =
      some c ∧
    lookupAssoc (handleDualCacheRequest noFaults net req st).st.secondary req.url =
      some c := by
  rw [handleDualCache_net_fail noFaults net req st hn]
  unfold dualCacheFallback
  rw [hp, hs]
  refine ⟨rfl, ?_, ?_⟩
  · simp [putTier, lookupAssoc_putAssoc]
  · simpa [putTier] using hs

/-- Witness for C5 at a concrete input: network down, `/a` only in
secondary. -/
theorem C5_witness :
    networkFails netDown reqA.url ∧
    lookupAssoc stSecA.primary reqA.url = none ∧
    lookupAssoc stSecA.secondary reqA.url = some okResp ∧
    ((handleDualCacheRequest noFaults netDown reqA stSecA).resp = some okResp ∧
      lookupAssoc (handleDualCacheRequest noFaults netDown reqA stSecA).st.primary
        reqA.url = some okResp ∧
      lookupAssoc (handleDualCacheRequest noFaults netDown reqA stSecA).st.secondary
        reqA.url = some okResp) :=
  ⟨Or.inl rfl, rfl, rfl,
   C5_promotion netDown reqA stSecA okResp (Or.inl rfl) rfl rfl⟩

/-- Claim C6 counterexample: the fetch listener tests
`url.includes('.json')`, a substring test, not "filename ends in `.json`".
The GET request for `/notes.jsonld` is routed to the API strategy by the
code although its filename does not end in `.json` (and its path has no
`/api/`), refuting the claimed "if and only if". -/
theorem C6_counterexample :
    fetchRoute "GET" "https://endroid.example/notes.jsonld" = Route.api ∧
    specApiRoute "https://endroid.example/notes.jsonld" = false := by
  decide

/-- Claim C6 as amended: an intercepted GET request (one not skipped for the
`chrome-extension://` scheme or a `browser-sync` URL) is routed to the API
strategy, rather than the dual-cache strategy, if and only if its URL
contains the substring `/api/`, or contains the substring `.json` while not
containing the substring `manifest.json`. -/
theorem C6_amended_routing (method url : String) (hm : method = "GET")
    (h1 : strStartsWith url "chrome-extension://" = false)
    (h2 : strContains url "browser-sync" = false) :
    fetchRoute method url = Route.api ↔
      (strContains url "/api/" = true ∨
        (strContains url ".json" = true ∧
          strContains url "manifest.json" = false)) := by
  subst hm
  unfold fetchRoute
  rw [h1, h2]
  cases ha : strContains url "/api/" <;>
    cases hj : strContains url ".json" <;>
      cases hmj : strContains url "manifest.json" <;>
        simp

/-- Witness for the amended C6 at a concrete URL containing `/api/`. -/
theorem C6_amended_witness :
    ("GET" : String) = "GET" ∧
    strStartsWith "https://endroid.example/api/tracks" "chrome-extension://" = false ∧
    strContains "https://endroid.example/api/tracks" "browser-sync" = false ∧
    (fetchRoute "GET" "https://endroid.example/api/tracks" = Route.api ↔
      (strContains "https://endroid.example/api/tracks" "/api/" = true ∨
        (strContains "https://endroid.example/api/tracks" ".json" = true ∧
          strContains "https://endroid.example/api/tracks" "manifest.json" = false))) :=
  ⟨rfl, by decide, by decide,
   C6_amended_routing "GET" "https://endroid.example/api/tracks" rfl
     (by decide) (by decide)⟩

/-- Claim C7: the API strategy always yields a response.  A resolved 200
response is returned and written into the data tier under the request URL;
on a rejected fetch, an exact cached match from any tier is returned when
one exists — in particular, a request whose only cached copy is in the data
tier gets that cached body — and otherwise the synthesized offline JSON
body is returned. -/
theorem C7_api_always_responds (net : Network) (url : String) (st : CacheState) :
    (∀ r, net url = some r → r.status = 200 →
      (handleApiRequest net url st).1 = r ∧
      lookupAssoc (handleApiRequest net url st).2.data url = some r) ∧
    (net url = none → ∀ c, cachesMatch st url = some c →
      (handleApiRequest net url st).1 = c) ∧
    (net url = none → cachesMatch st url = none →
      (handleApiRequest net url st).1 = offlineJsonResponse) ∧
    (net url = none → lookupAssoc st.primary url = none →
      lookupAssoc st.secondary url = none →
      ∀ c, lookupAssoc st.data url = some c →
        (handleApiRequest net url st).1 = c) := by
  refine ⟨?_, ?_, ?_, ?_⟩
  · intro r hr h200
    unfold handleApiRequest
    rw [hr]
    dsimp only
    rw [if_pos h200]
    exact ⟨rfl, by simp [putTier, lookupAssoc_putAssoc]⟩
  · intro hr c hc
    unfold handleApiRequest
    rw [hr]
    dsimp only
    rw [hc]
  · intro hr hc
    unfold handleApiRequest
    rw [hr]
    dsimp only
    rw [hc]
  · intro hr hp hs c hd
    unfold handleApiRequest
    rw [hr]
    dsimp only
    unfold cachesMatch
    rw [hp, hs, hd]

/-- Witness for C7: a 200 network response is returned and stored, and with
the network down and `/a` cached only in the data tier, the data-tier entry
— not the synthesized offline body — is returned. -/
theorem C7_witness :
    netAlways "/a" = some okResp ∧ okResp.status = 200 ∧
    ((handleApiRequest netAlways "/a" emptyState).1 = okResp ∧
      lookupAssoc (handleApiRequest netAlways "/a" emptyState).2.data "/a" =
        some okResp) ∧
    netDown "/a" = none ∧ lookupAssoc stDataA.data "/a" = some okResp ∧
    (handleApiRequest netDown "/a" stDataA).1 = okResp :=
  ⟨rfl, rfl,
   (C7_api_always_responds netAlways "/a" emptyState).1 okResp rfl rfl,
   rfl, rfl,
   (C7_api_always_responds netDown "/a" stDataA).2.2.2 rfl rfl rfl okResp rfl⟩

/-- Claim C10 (implicit): the offline JSON error body synthesized by the
API strategy is returned with HTTP status 200, the `Response` constructor's
default, so its status code is indistinguishable from a success. -/
theorem C10_offline_error_status (net : Network) (url : String) (st : CacheState)
    (h1 : net url = none) (h2 : cachesMatch st url = none) :
    (handleApiRequest net url st).1.status = 200 ∧
    (handleApiRequest net url st).1.body = "\x7b\"error\":\"Offline\"\x7d" ∧
    (handleApiRequest net url st).1.headers =
      [("Content-Type", "application/json")] := by
  unfold handleApiRequest
  rw [h1]
  dsimp only
  rw [h2]
  exact ⟨rfl, rfl, rfl⟩

/-- Witness for C10: network down, nothing cached. -/
theorem C10_witness :
    netDown "/a" = none ∧ cachesMatch emptyState "/a" = none ∧
    ((handleApiRequest netDown "/a" emptyState).1.status = 200 ∧
      (handleApiRequest netDown "/a" emptyState).1.body =
        "\x7b\"error\":\"Offline\"\x7d" ∧
      (handleApiRequest netDown "/a" emptyState).1.headers =
        [("Content-Type", "application/json")]) :=
  ⟨rfl, rfl, C10_offline_error_status netDown "/a" emptyState rfl rfl⟩

/-! ### Lemmas for installation idempotence -/

theorem lookupAssoc_addAllPuts (net : Network) (assets : List String)
    (h : ∀ a ∈ assets, (net a).isSome = true) (t : TierMap) (k : String) :
    lookupAssoc (addAllPuts net assets t) k =
      if k ∈ assets then net k else lookupAssoc t k := by
  induction assets generalizing t with
  | nil => simp [addAllPuts]
  | cons b rest ih =>
    obtain ⟨rb, hrb⟩ :=
      Option.isSome_iff_exists.mp (h b (List.mem_cons_self b rest))
    have step : addAllPuts net (b :: rest) t = addAllPuts net rest (putAssoc b rb t) := by
      unfold addAllPuts
      rw [List.foldl_cons]
      congr 1
      show (match net b with
            | some r => putAssoc b r t
            | none => t) = putAssoc b rb t
      rw [hrb]
    rw [step, ih (fun a ha => h a (List.mem_cons_of_mem b ha))]
    by_cases hk : k ∈ rest
    · simp [hk, List.mem_cons]
    · by_cases hkb : k = b
      · subst hkb
        simp [hk, List.mem_cons, lookupAssoc_putAssoc, hrb]
      · simp [hk, hkb, List.mem_cons, lookupAssoc_putAssoc, Ne.symm hkb]

theorem addAllOk_isSome (net : Network) (assets : List String)
    (hok : addAllOk net assets = true) : ∀ a ∈ assets, (net a).isSome = true := by
  intro a ha
  unfold addAllOk at hok
  have hfa := List.all_eq_true.mp hok a ha
  cases hna : net a
  · rw [hna] at hfa
    simp at hfa
  · rfl

theorem installTier_idem (net : Network) (assets : List String) (t : TierMap)
    (k : String) :
    lookupAssoc (installTier net assets (installTier net assets t)) k =
      lookupAssoc (installTier net assets t) k := by
  unfold installTier
  cases hok : addAllOk net assets
  · simp
  · have hall := addAllOk_isSome net assets hok
    simp only [if_true, lookupAssoc_addAllPuts net assets hall]
    by_cases hk : k ∈ assets <;> simp [hk]

/-- Claim C9: install is idempotent — running the installation routine twice
in sequence leaves all three tiers with the same contents (as key→response
mappings) as running it once.  Writes overwrite, `addAll` creates no
duplicate identity within a tier, and opening an existing tier is the
identity on its contents (the Cache API's `open` is idempotent and
error-free on an existing tier, which the embedding reflects by `installTier`
operating on the existing tier map). -/
theorem C9_install_idempotent (net : Network) (st : CacheState) (k : String) :
    lookupAssoc (installSW net (installSW net st)).primary k =
      lookupAssoc (installSW net st).primary k ∧
    lookupAssoc (installSW net (installSW net st)).secondary k =
      lookupAssoc (installSW net st).secondary k ∧
    lookupAssoc (installSW net (installSW net st)).data k =
      lookupAssoc (installSW net st).data k :=
  ⟨installTier_idem net CRITICAL_ASSETS st.primary k,
   installTier_idem net CRITICAL_ASSETS st.secondary k,
   installTier_idem net OPTIONAL_ASSETS st.data k⟩

/-! ### Lemmas for the health check and repair -/

theorem healthyB_iff (t : TierMap) : healthyB t = true ↔ 5 ≤ countHealthy t := by
  unfold healthyB
  rw [decide_eq_true_eq]
  have hlen : CRITICAL_ASSETS.length = 6 := rfl
  rw [hlen]
  omega

theorem lookupAssoc_repairStep_ne (pf : String → Bool) (donor acc : TierMap)
    (a b : String) (hab : a ≠ b) :
    lookupAssoc (repairStep pf donor acc b) a = lookupAssoc acc a := by
  unfold repairStep
  cases hd : lookupAssoc donor b
  · rfl
  · cases hpf : pf b
    · simp [lookupAssoc_putAssoc, Ne.symm hab]
    · simp

theorem lookupAssoc_repairFold_notMem (pf : String → Bool) (donor : TierMap)
    (assets : List String) (a : String) :
    ∀ target, a ∉ assets →
      lookupAssoc (repairFold pf donor assets target) a = lookupAssoc target a := by
  induction assets with
  | nil => intro target _; rfl
  | cons b rest ih =>
    intro target ha
    rw [repairFold, List.foldl_cons, ← repairFold]
    have hab : a ≠ b := fun h => ha (h ▸ List.mem_cons_self b rest)
    rw [ih _ (fun h => ha (List.mem_cons_of_mem b h)),
      lookupAssoc_repairStep_ne pf donor target a b hab]

theorem lookupAssoc_repairFold_mem (pf : String → Bool) (donor : TierMap)
    (assets : List String) (a : String) (r : Resp) :
    assets.Nodup → a ∈ assets → lookupAssoc donor a = some r → pf a = false →
    ∀ target, lookupAssoc (repairFold pf donor assets target) a = some r := by
  induction assets with
  | nil => intro _ ha; cases ha
  | cons b rest ih =>
    intro hnd ha hd hpf target
    rw [repairFold, List.foldl_cons, ← repairFold]
    rcases List.mem_cons.mp ha with rfl | hmem
    · have hnr : a ∉ rest := (List.nodup_cons.mp hnd).1
      rw [lookupAssoc_repairFold_notMem pf donor rest a _ hnr]
      unfold repairStep
      rw [hd]
      simp [hpf, lookupAssoc_putAssoc]
    · exact ih (List.nodup_cons.mp hnd).2 hmem hd hpf _

theorem checkCacheHealth_data (pf : Tier → String → Bool) (st : CacheState) :
    (checkCacheHealth pf st).data = st.data := by
  cases hp : healthyB st.primary <;> cases hs : healthyB st.secondary <;>
    simp [checkCacheHealth, hp, hs]

theorem checkCacheHealth_repair_primary (pf : Tier → String → Bool)
    (st : CacheState) (hp : healthyB st.primary = false) :
    (checkCacheHealth pf st).primary =
      repairFold (pf .primary) st.secondary CRITICAL_ASSETS st.primary := by
  cases hs : healthyB st.secondary <;> simp [checkCacheHealth, hp, hs]

theorem checkCacheHealth_repair_secondary (pf : Tier → String → Bool)
    (st : CacheState) (hp : healthyB st.primary = true)
    (hs : healthyB st.secondary = false) :
    (checkCacheHealth pf st).secondary =
      repairFold (pf .secondary) st.primary CRITICAL_ASSETS st.secondary := by
  simp [checkCacheHealth, hp, hs]

theorem CRITICAL_ASSETS_nodup : CRITICAL_ASSETS.Nodup := by decide

/-- Claim C8: a tier is declared healthy exactly when the number of critical
manifest entries present in it with a 200 status reaches 80% of the
six-entry manifest (that is, at least 5); an unhealthy primary is repaired
by copying in every manifest entry present in the secondary whose per-entry
put does not fault (faults are skipped, never aborting the pass), an
unhealthy secondary likewise from the primary, and the data tier is never
health-checked or repaired. -/
theorem C8_health_and_repair (pf : Tier → String → Bool) (st : CacheState)
    (a : String) (r r' : Resp) :
    (healthyB st.primary = true ↔ 5 ≤ countHealthy st.primary) ∧
    (healthyB st.secondary = true ↔ 5 ≤ countHealthy st.secondary) ∧
    (checkCacheHealth pf st).data = st.data ∧
    (healthyB st.primary = false → a ∈ CRITICAL_ASSETS →
      lookupAssoc st.secondary a = some r → pf .primary a = false →
      lookupAssoc (checkCacheHealth pf st).primary a = some r) ∧
    (healthyB st.primary = true → healthyB st.secondary = false →
      a ∈ CRITICAL_ASSETS → lookupAssoc st.primary a = some r' →
      pf .secondary a = false →
      lookupAssoc (checkCacheHealth pf st).secondary a = some r') := by
  refine ⟨healthyB_iff st.primary, healthyB_iff st.secondary,
    checkCacheHealth_data pf st, ?_, ?_⟩
  · intro hp ha hd hpf
    rw [checkCacheHealth_repair_primary pf st hp]
    exact lookupAssoc_repairFold_mem (pf .primary) st.secondary CRITICAL_ASSETS a r
      CRITICAL_ASSETS_nodup ha hd hpf st.primary
  · intro hp hs ha hd hpf
    rw [checkCacheHealth_repair_secondary pf st hp hs]
    exact lookupAssoc_repairFold_mem (pf .secondary) st.primary CRITICAL_ASSETS a r'
      CRITICAL_ASSETS_nodup ha hd hpf st.secondary

/-- Witness for C8: the empty primary tier is unhealthy, and after the check
the root document present in secondary has been copied into primary. -/
theorem C8_witness :
    healthyB stSecRoot.primary = false ∧ "/" ∈ CRITICAL_ASSETS ∧
    lookupAssoc stSecRoot.secondary "/" = some okResp ∧
    lookupAssoc (checkCacheHealth (fun _ _ => false) stSecRoot).primary "/" =
      some okResp :=
  ⟨by decide, by decide, rfl,
   (C8_health_and_repair (fun _ _ => false) stSecRoot "/" okResp okResp).2.2.2.1
     (by decide) (by decide) rfl rfl⟩

end SW
